import Mathlib

/-!
Verification development for the `sonewarch` per-query web search service.

Each Python component relevant to the checked properties is shallowly
embedded as executable Lean definitions: floats become `ℚ`, Python strings
become `String`, Python `dict`/JSON values become explicit inductives, and
stateful code is written as explicit state passing.  The embeddings follow
`src/utils/text_ranking.py`, `src/app/services/rate_limiter.py`,
`src/app/core/crawler.py`, `src/app/services/cache_service.py`,
`src/app/services/state_manager.py` and `src/app/core/search_engine.py`.
-/

namespace Ranker

/-- Python `str.lower()`: lowercase every character. -/
def pyLower (s : String) : String := ⟨s.data.map Char.toLower⟩

/-- Python `needle in hay` on strings: substring containment, as a Bool. -/
def pyIn (needle hay : String) : Bool := decide (needle.data <:+: hay.data)

/-- Helper for `pyWords`: scan the characters, accumulating the current
word (reversed) and emitting it when a whitespace run starts. -/
def pyWordsAux : List Char → List Char → List String
  | [], acc => if acc = [] then [] else [⟨acc.reverse⟩]
  | c :: rest, acc =>
    if c.isWhitespace then
      if acc = [] then pyWordsAux rest []
      else ⟨acc.reverse⟩ :: pyWordsAux rest []
    else pyWordsAux rest (c :: acc)

/-- Python `s.split()` with no argument: split on whitespace runs,
discarding empty pieces. -/
def pyWords (s : String) : List String := pyWordsAux s.data []

/-- Python `set(s.split())`. -/
def wordSet (s : String) : Finset String := (pyWords s).toFinset

/-- `len(search_words.intersection(field_words)) / len(search_words)`.
Python would raise `ZeroDivisionError` when the search term has no words;
the embedding's `ℚ` division returns 0 there (queries are non-empty). -/
def wordOverlapScore (field term : String) : ℚ :=
  ((wordSet term ∩ wordSet field).card : ℚ) / ((wordSet term).card : ℚ)

/-- `TextRanker._calculate_title_score` (term already lowercased by caller). -/
def titleScore (title term : String) : ℚ :=
  if title = "" then 0
  else
    let t := pyLower title
    if pyIn term t then 1 else wordOverlapScore t term

/-- `TextRanker._calculate_meta_score`. -/
def metaScore (meta term : String) : ℚ :=
  if meta = "" then 0
  else
    let m := pyLower meta
    if pyIn term m then 1 else wordOverlapScore m term

/-- Per-header score inside `TextRanker._calculate_headers_score`. -/
def headerOne (term header : String) : ℚ :=
  let h := pyLower header
  if pyIn term h then 1 else wordOverlapScore h term

/-- `TextRanker._calculate_headers_score`: `max(scores)` over headers
(0 on the empty list, matching the `if not headers` early return). -/
def headersScore (headers : List String) (term : String) : ℚ :=
  if headers = [] then 0
  else (headers.map (headerOne term)).foldr max 0

/-- Per-match score inside `TextRanker._calculate_content_score`. -/
def matchOne (term mtch : String) : ℚ :=
  if pyIn term (pyLower mtch) then 1 else wordOverlapScore (pyLower mtch) term

/-- `TextRanker._calculate_content_score`:
`min(total_score / len(matches), 1.0)`, 0 on no matches. -/
def contentScore (ms : List String) (term : String) : ℚ :=
  if ms = [] then 0
  else min ((ms.map (matchOne term)).sum / (ms.length : ℚ)) 1

/-- `TextRanker._calculate_position_score`: mean of `1/(i+1)` over the
match indices, 0 on no matches. -/
def positionScore (ms : List String) : ℚ :=
  if ms = [] then 0
  else ((List.range ms.length).map (fun i => (1 : ℚ) / (i + 1))).sum
        / (ms.length : ℚ)

/-- `RankingMetrics` from `text_ranking.py`. -/
structure RankingMetrics where
  title_score : ℚ
  meta_score : ℚ
  headers_score : ℚ
  content_score : ℚ
  position_score : ℚ
  total_score : ℚ
  deriving Repr, DecidableEq

/-- `TextRanker.calculate_relevance`: lowercases the search term, computes
the five component scores and the weighted total
(weights title 3, meta 2, headers 1.5, content 1, position 0.5). -/
def calculateRelevance (ms : List String) (title meta : String)
    (headers : List String) (searchTerm : String) : RankingMetrics :=
  let term := pyLower searchTerm
  let ts := titleScore title term
  let mes := metaScore meta term
  let hs := headersScore headers term
  let cs := contentScore ms term
  let ps := positionScore ms
  { title_score := ts
    meta_score := mes
    headers_score := hs
    content_score := cs
    position_score := ps
    total_score := ts * 3 + mes * 2 + hs * (3/2) + cs * 1 + ps * (1/2) }

end Ranker

namespace RateLimiter

/-- Rate limiter parameters: steady rate `requests_per_second` and
`burst_size` (`RateLimiter.__init__`, defaults 2 and 5). -/
structure Config where
  requestsPerSecond : ℚ
  burstSize : ℚ
  deriving Repr, DecidableEq

/-- A per-domain bucket as held in `self.domains`: token count and
`last_update` timestamp.  Times are rational seconds. -/
structure Bucket where
  tokens : ℚ
  lastUpdate : ℚ
  deriving Repr, DecidableEq

/-- The bucket created on first access by the `defaultdict`:
`tokens = burst_size`, `last_update = now`. -/
def initBucket (cfg : Config) (now : ℚ) : Bucket :=
  { tokens := cfg.burstSize, lastUpdate := now }

/-- `RateLimiter._refill_tokens`:
`tokens = min(tokens + time_passed * requests_per_second, burst_size)`,
`last_update = now`. -/
def refill (cfg : Config) (b : Bucket) (now : ℚ) : Bucket :=
  { tokens := min (b.tokens + (now - b.lastUpdate) * cfg.requestsPerSecond)
      cfg.burstSize
    lastUpdate := now }

/-- `RateLimiter.release`: refund one token, but only when the current
count is below `burst_size` (the increment itself is not capped). -/
def release (cfg : Config) (b : Bucket) : Bucket :=
  if b.tokens < cfg.burstSize then { b with tokens := b.tokens + 1 } else b

/-- One timed event on a single domain's bucket.  `acquireAt t` is an
`acquire` call whose final loop check happens at time `t`: the code refills
and proceeds as soon as the `while tokens <= 0` guard fails, i.e. when the
refilled count is strictly positive, then decrements.  A trace is valid
(`step` returns `some`) only when each acquire completes at its stated
time with a strictly positive refilled count and timestamps never go
backwards, so every valid trace is a behaviour the code can exhibit. -/
inductive Event where
  | acquireAt (t : ℚ)
  | releaseEv
  deriving Repr, DecidableEq

/-- Apply one event to the bucket; `none` means the trace is not a
behaviour of the code (time moved backwards, or an acquire was scheduled
while the `while tokens <= 0` guard still held). -/
def step (cfg : Config) (b : Bucket) : Event → Option Bucket
  | .acquireAt t =>
    if t < b.lastUpdate then none
    else
      let b' := refill cfg b t
      if 0 < b'.tokens then some { b' with tokens := b'.tokens - 1 } else none
  | .releaseEv => some (release cfg b)

/-- Run a timed event trace against a bucket. -/
def run (cfg : Config) : List Event → Bucket → Option Bucket
  | [], b => some b
  | e :: es, b =>
    match step cfg b e with
    | none => none
    | some b' => run cfg es b'

/-- Number of acquire completions of a trace inside the window `[t0, t1]`. -/
def completionsIn (es : List Event) (t0 t1 : ℚ) : ℕ :=
  es.countP fun e =>
    match e with
    | .acquireAt t => decide (t0 ≤ t ∧ t ≤ t1)
    | .releaseEv => false

/-- The default configuration `R = 2, B = 5`. -/
def defaultCfg : Config := { requestsPerSecond := 2, burstSize := 5 }

end RateLimiter

namespace Crawler

/-- `Crawler.get_urls`'s loop, one constructor case per iteration, with a
fuel argument (the Python loop has no structural termination measure; the
cap theorem below holds for every fuel, hence for the actual number of
iterations).  `fetch` stands for `self.fetch_page` (rate-limited HTTP GET,
`None` on non-200 or transport error) and `extract` for
`self.extract_urls content url` (same-domain `<a href>` targets); both are
oracles because they wrap network and HTML-library calls.  The `to_visit`
set is modelled as a worklist popped from the head; `seen_urls` is the
`visited` set.  New links are filtered against the updated `seen` set
(`new_urls - self.seen_urls`) and added to the worklist. -/
def getUrlsLoop (fetch : String → Option String)
    (extract : String → String → List String) (maxPages : ℕ) :
    ℕ → List String → Finset String → Finset String
  | 0, _, seen => seen
  | _ + 1, [], seen => seen
  | fuel + 1, url :: rest, seen =>
    if seen.card < maxPages then
      if url ∈ seen then getUrlsLoop fetch extract maxPages fuel rest seen
      else
        let seen' := insert url seen
        match fetch url with
        | some content =>
          getUrlsLoop fetch extract maxPages fuel
            (rest ++ ((extract content url).filter (fun u => u ∉ seen'))) seen'
        | none => getUrlsLoop fetch extract maxPages fuel rest seen'
    else seen

/-- `Crawler.get_urls`: start from `to_visit = {start_url}`, empty
`seen_urls`, and loop while the worklist is non-empty and
`len(seen_urls) < max_pages`. -/
def getUrls (fetch : String → Option String)
    (extract : String → String → List String) (startUrl : String)
    (maxPages : ℕ) (fuel : ℕ) : Finset String :=
  getUrlsLoop fetch extract maxPages fuel [startUrl] ∅

end Crawler

namespace Engine

/-- The `SearchResult` dataclass of `search_engine.py` (`relevance` is a
float in the source; the embedding uses `ℚ`). -/
structure SearchResult where
  url : String
  title : String
  context : String
  count : ℕ
  relevance : ℚ
  deriving Repr, DecidableEq

end Engine

namespace Cache

/-- A JSON document as stored by `CacheService` under a cache key: either
JSON `null` or the serialized form of a result object. -/
inductive JsonVal where
  | null
  | obj (r : Engine.SearchResult)
  deriving Repr, DecidableEq

/-- The redis keyspace reachable by the cache plus the in-process
`self.stats` counters used by `get_result`/`store_result`. -/
structure CacheState where
  store : List (String × JsonVal)
  hits : ℕ
  misses : ℕ
  writes : ℕ
  deriving Repr, DecidableEq

/-- `CacheService._make_key`: `f"{self.cache_prefix}{url}:{search_term}"`
with prefix `search_cache:`. -/
def makeKey (url term : String) : String :=
  "search_cache:" ++ url ++ ":" ++ term

/-- Redis `GET`. -/
def lookup (st : List (String × JsonVal)) (k : String) : Option JsonVal :=
  (st.find? (fun p => p.1 = k)).map (fun p => p.2)

/-- `handle_cache_errors`: await the wrapped coroutine; any exception is
logged and `None` is returned instead (state mutations made before the
raise are kept — here none are, since the raise is the first statement). -/
def handleCacheErrors (c : CacheState)
    (body : Except String (CacheState × Option Engine.SearchResult)) :
    CacheState × Option Engine.SearchResult :=
  match body with
  | .ok r => r
  | .error _ => (c, none)

/-- The body of `CacheService.get_result` as the program executes it: its
first statement `data = await self.redis.get(key)` evaluates the
synchronous `redis.Redis.get` call — which performs the read and returns a
`str` or `None` — and then awaits that non-awaitable value, raising
`TypeError`.  The truthiness test `if data:`, both counter increments
(`cache_hits`, `cache_misses`) and `json.loads(data)` on the lines below
are unreachable dead code, whatever the store holds under the key. -/
def getResultBody (c : CacheState) (url term : String) :
    Except String (CacheState × Option Engine.SearchResult) :=
  match lookup c.store (makeKey url term) with
  | some _ => .error "TypeError: object str cannot be used in await expression"
  | none => .error "TypeError: object NoneType cannot be used in await expression"

/-- `CacheService.get_result` = `handle_cache_errors` around the body:
always returns `None` with the counters and store untouched. -/
def getResult (c : CacheState) (url term : String) :
    CacheState × Option Engine.SearchResult :=
  handleCacheErrors c (getResultBody c url term)

end Cache

namespace SM

/-- A Python value as stored in a `SearchState` field or a JSON document:
int, float, string, or `None`. -/
inductive PyVal where
  | pint (n : ℤ)
  | pfloat (q : ℚ)
  | pstr (s : String)
  | pnone
  deriving Repr, DecidableEq

/-- Numeric reading of a `PyVal` (every numeric field this module writes is
a `pint` or `pfloat`). -/
def PyVal.toQ : PyVal → ℚ
  | .pint n => (n : ℚ)
  | .pfloat q => q
  | _ => 0

/-- The `SearchState` dataclass of `state_manager.py` with its defaults:
`total_urls=0, processed_urls=0, found_results=0, current_status="waiting",
start_time=0, error=None, last_update=0`. -/
structure PyState where
  total_urls : PyVal := .pint 0
  processed_urls : PyVal := .pint 0
  found_results : PyVal := .pint 0
  current_status : PyVal := .pstr "waiting"
  start_time : PyVal := .pint 0
  error : PyVal := .pnone
  last_update : PyVal := .pint 0
  deriving Repr, DecidableEq

/-- The dataclass's field names, in declaration order. -/
def fieldNames : List String :=
  ["total_urls", "processed_urls", "found_results", "current_status",
   "start_time", "error", "last_update"]

/-- Python `hasattr(state, key)` for a `SearchState`. -/
def hasattr (k : String) : Bool := k ∈ fieldNames

/-- Python `setattr(state, key, value)` for a `SearchState` (no-op on a
non-field name; `update_state` guards with `hasattr` anyway). -/
def setattr (s : PyState) (k : String) (v : PyVal) : PyState :=
  if k = "total_urls" then { s with total_urls := v }
  else if k = "processed_urls" then { s with processed_urls := v }
  else if k = "found_results" then { s with found_results := v }
  else if k = "current_status" then { s with current_status := v }
  else if k = "start_time" then { s with start_time := v }
  else if k = "error" then { s with error := v }
  else if k = "last_update" then { s with last_update := v }
  else s

/-- Python `round(x, 2)` (banker's rounding, half to even). -/
def pyRound2 (q : ℚ) : ℚ :=
  let x := q * 100
  let n := Int.floor x
  let f := x - n
  if f < 1 / 2 then (n : ℚ) / 100
  else if 1 / 2 < f then ((n : ℚ) + 1) / 100
  else if Even n then (n : ℚ) / 100 else ((n : ℚ) + 1) / 100

/-- `SearchState.calculate_progress`:
`0` when `total_urls == 0`, else `round(processed/total*100, 2)`. -/
def calculateProgress (s : PyState) : ℚ :=
  if s.total_urls.toQ = 0 then 0
  else pyRound2 (s.processed_urls.toQ / s.total_urls.toQ * 100)

/-- The JSON document `json.dumps(state.to_dict())` stored under the state
key: `asdict(self)` (the seven dataclass fields) PLUS the derived
`progress` and `elapsed_time` entries added by `to_dict`. -/
def toDict (s : PyState) (now : ℚ) : List (String × PyVal) :=
  [("total_urls", s.total_urls), ("processed_urls", s.processed_urls),
   ("found_results", s.found_results), ("current_status", s.current_status),
   ("start_time", s.start_time), ("error", s.error),
   ("last_update", s.last_update),
   ("progress", .pfloat (calculateProgress s)),
   ("elapsed_time", .pfloat (pyRound2 (now - s.start_time.toQ)))]

/-- `SearchState(**current_state)`: the dataclass `__init__` accepts only
keyword arguments that are field names and raises `TypeError` on any other
key (in particular on the stored `progress` and `elapsed_time` entries);
otherwise it starts from the defaults and sets each given field. -/
def stateOfKwargs (kwargs : List (String × PyVal)) : Except String PyState :=
  if kwargs.all (fun p => hasattr p.1) then
    .ok (kwargs.foldl (fun s p => setattr s p.1 p.2) {})
  else .error "TypeError: unexpected keyword argument"

/-- The redis keyspace used by `StateManager`: state key ↦ stored JSON
document (decoded as a key/value list; `json.loads ∘ json.dumps` is the
identity on these documents). -/
def Store := List (String × List (String × PyVal))

/-- `f"{self.state_prefix}{search_id}"` with prefix `search_state:`. -/
def skey (id : String) : String := "search_state:" ++ id

/-- Redis `GET` of a state document. -/
def slookup (st : Store) (k : String) : Option (List (String × PyVal)) :=
  (st.find? (fun p => p.1 = k)).map (fun p => p.2)

/-- Redis `SETEX` of a state document (TTL not represented in the map). -/
def sinsert (st : Store) (k : String) (d : List (String × PyVal)) : Store :=
  (k, d) :: st.filter (fun p => p.1 ≠ k)

/-- `StateManager.get_state`: fetch and decode, `None` when absent. -/
def getState (st : Store) (id : String) : Option (List (String × PyVal)) :=
  slookup st (skey id)

/-- `StateManager.init_search` as the program executes it: it builds
`SearchState(start_time=now, last_update=now)` and calls `_save_state`,
whose `await self.redis.setex(...)` first evaluates the synchronous
`redis.setex` call — committing the document to the store — and then
awaits its boolean return value, raising `TypeError`; `_save_state` and
`init_search` both catch, log and re-raise, so every call raises after
having stored the waiting document. -/
def initSearch (st : Store) (id : String) (now : ℚ) :
    Store × Except String Unit :=
  let s : PyState := { start_time := .pfloat now, last_update := .pfloat now }
  (sinsert st (skey id) (toDict s now),
   .error "TypeError: object bool cannot be used in await expression")

/-- `StateManager.update_state`: read the stored document; if absent,
return silently; otherwise rebuild `SearchState(**current_state)` — which
raises `TypeError` whenever the document carries the derived keys — then
apply the `hasattr`-guarded `setattr` loop over the kwargs, stamp
`last_update`, and save.  An exception is logged and re-raised
(`Except.error`), leaving the store as it was. -/
def updateState (st : Store) (id : String) (kwargs : List (String × PyVal))
    (now : ℚ) : Except String Store :=
  match getState st id with
  | none => .ok st
  | some d =>
    match stateOfKwargs d with
    | .error e => .error e
    | .ok s =>
      let s := kwargs.foldl
        (fun s p => if hasattr p.1 then setattr s p.1 p.2 else s) s
      let s := { s with last_update := .pfloat now }
      .ok (sinsert st (skey id) (toDict s now))

/-- `StateManager.mark_completed`:
`update_state(id, current_status="completed", last_update=now)`. -/
def markCompleted (st : Store) (id : String) (now : ℚ) : Except String Store :=
  updateState st id
    [("current_status", .pstr "completed"), ("last_update", .pfloat now)] now

/-- `StateManager.mark_error`:
`update_state(id, current_status="error", error=err, last_update=now)`. -/
def markError (st : Store) (id : String) (err : String) (now : ℚ) :
    Except String Store :=
  updateState st id
    [("current_status", .pstr "error"), ("error", .pstr err),
     ("last_update", .pfloat now)] now

/-- One state-tracker mutation on an existing search: a raw `update_state`
or one of its `mark_completed`/`mark_error` wrappers. -/
inductive Op where
  | update (id : String) (kwargs : List (String × PyVal)) (now : ℚ)
  | complete (id : String) (now : ℚ)
  | err (id : String) (msg : String) (now : ℚ)

/-- The store after a call: the new store on success, the old store when
the call raised. -/
def applyOp (st : Store) : Op → Store
  | .update id kw now =>
    match updateState st id kw now with
    | .ok st' => st'
    | .error _ => st
  | .complete id now =>
    match markCompleted st id now with
    | .ok st' => st'
    | .error _ => st
  | .err id msg now =>
    match markError st id msg now with
    | .ok st' => st'
    | .error _ => st

/-- A sequence of mutations. -/
def runOps (st : Store) : List Op → Store
  | [] => st
  | op :: ops => runOps (applyOp st op) ops

/-- Every stored document carries a `progress` entry — true of everything
`_save_state` ever writes, since `to_dict` appends it. -/
def wf (st : Store) : Bool :=
  st.all (fun p => p.2.any (fun q => q.1 = "progress"))

/-- Value of a key in a stored document (first occurrence). -/
def dictGet (d : List (String × PyVal)) (k : String) : Option PyVal :=
  (d.find? (fun p => p.1 = k)).map (fun p => p.2)

/-- A completed in-memory state, used by the C8 witness. -/
def c8state : PyState := { current_status := PyVal.pstr "completed" }

/-- A store holding one terminal (completed) search document, as
`_save_state` would have written it. -/
def c8store : Store := [(skey "s1", toDict c8state 0)]

/-- Attempted mutations for the C8 witness: a raw `update_state` that tries
to force the status back to waiting, a `mark_completed` on another id, and
a `mark_error` on the terminal search. -/
def c8ops : List Op :=
  [Op.update "s1" [("current_status", PyVal.pstr "waiting")] 1,
   Op.complete "s2" 2,
   Op.err "s1" "boom" 3]

end SM

namespace Engine

/-- `SearchEngine.search` as the program executes it.  Step 1,
`await self.state_manager.init_search(search_id)`, commits the waiting
document (the synchronous `redis.setex` inside `_save_state` runs) and
then raises `TypeError` when the boolean return of `setex` is awaited.
Control moves to the `except` block, whose statement
`await self.state_manager.fail_search(search_id)` first looks up
`fail_search` — an attribute `StateManager` does not define — so an
`AttributeError` replaces the `TypeError` and propagates to the caller.
Lines 43–64 of `search_engine.py` (crawler discovery, the per-URL cache
lookups and `process_url` tasks, the `isinstance` filter, the relevance
sort, `complete_search`) are unreachable, as are the other
`StateManager` methods `search` names that do not exist
(`update_total_urls`, `increment_processed_urls`, `complete_search`).
Returns the state store after the call, the list of URLs passed to
`crawler.fetch_page` (none — the crawler is never invoked), and the
outcome; the unused parameters mirror the Python signature. -/
def searchRun (st : SM.Store) (searchId startUrl searchTerm : String)
    (maxPages : ℕ) (now : ℚ) :
    SM.Store × List String × Except String (List SearchResult) :=
  let st1 := (SM.initSearch st searchId now).1
  (st1, [],
   .error "AttributeError: StateManager has no attribute fail_search")

end Engine

/-- The trace refuting C5's window bound: five acquires at `t = 0` drain
the burst of 5; a sixth acquire arriving at `t = 0.25` refills
`0.25 · 2 = 0.5` tokens, and the `while tokens <= 0` guard (instead of the
spec's `< 1`) lets it complete.  All six completions lie in the window
`[0, 0.25]`. -/
def c5trace : List RateLimiter.Event :=
  [.acquireAt 0, .acquireAt 0, .acquireAt 0, .acquireAt 0, .acquireAt 0,
   .acquireAt (1/4)]


/-- The trace refuting C6: after the burst is drained, an acquire at
`t = 0.25` completes although the refilled bucket holds only `1/2 < 1`
token, leaving a negative count. -/
def c6trace : List RateLimiter.Event :=
  [.acquireAt 0, .acquireAt 0, .acquireAt 0, .acquireAt 0, .acquireAt 0,
   .acquireAt (1/4)]


/-- Cache state with a cached null for `(u, q)` and nothing else, used by
the C9 counterexample. -/
def c9cache : Cache.CacheState :=
  { store := [(Cache.makeKey "u" "q", Cache.JsonVal.null)]
    hits := 0, misses := 0, writes := 0 }


-- ==================== Theorems ====================

namespace Ranker

theorem wordOverlapScore_nonneg (field term : String) :
    0 ≤ wordOverlapScore field term :=
  div_nonneg (by positivity) (by positivity)

theorem wordOverlapScore_le_one (field term : String) :
    wordOverlapScore field term ≤ 1 := by
  unfold wordOverlapScore
  apply div_le_one_of_le₀
  · exact_mod_cast Finset.card_le_card Finset.inter_subset_left
  · positivity

theorem matchOne_nonneg (term mtch : String) : 0 ≤ matchOne term mtch := by
  unfold matchOne
  split
  · norm_num
  · exact wordOverlapScore_nonneg _ _

theorem matchOne_le_one (term mtch : String) : matchOne term mtch ≤ 1 := by
  unfold matchOne
  split
  · norm_num
  · exact wordOverlapScore_le_one _ _

theorem list_sum_le_length (t : String) (l : List String) :
    (l.map (matchOne t)).sum ≤ (l.length : ℚ) := by
  induction l with
  | nil => simp
  | cons x xs ih =>
    simp only [List.map_cons, List.sum_cons, List.length_cons]
    push_cast
    have := matchOne_le_one t x
    linarith

theorem list_sum_nonneg_matchOne (t : String) (l : List String) :
    0 ≤ (l.map (matchOne t)).sum := by
  induction l with
  | nil => simp
  | cons x xs ih =>
    simp only [List.map_cons, List.sum_cons]
    have := matchOne_nonneg t x
    linarith

theorem contentScore_append_ge (ms : List String) (m t : String)
    (h : matchOne t m = 1) :
    contentScore ms t ≤ contentScore (ms ++ [m]) t := by
  rcases eq_or_ne ms [] with rfl | hne
  · simp [contentScore, h]
  · have hne' : ms ++ [m] ≠ [] := by simp
    simp only [contentScore, if_neg hne, if_neg hne', List.map_append,
      List.sum_append, List.length_append, List.map_cons, List.map_nil,
      List.sum_cons, List.sum_nil, List.length_cons, List.length_nil, h]
    have hn : 1 ≤ (ms.length : ℚ) := by
      have : 1 ≤ ms.length := List.length_pos.mpr hne
      exact_mod_cast this
    have hs := list_sum_le_length t ms
    apply min_le_min _ (le_refl 1)
    rw [div_le_div_iff₀ (by linarith) (by push_cast; linarith)]
    push_cast
    nlinarith


end Ranker

namespace Crawler

theorem getUrlsLoop_card_le (fetch : String → Option String)
    (extract : String → String → List String) (maxPages : ℕ) :
    ∀ (fuel : ℕ) (tv : List String) (seen : Finset String),
      seen.card ≤ maxPages →
      (getUrlsLoop fetch extract maxPages fuel tv seen).card ≤ maxPages := by
  intro fuel
  induction fuel with
  | zero => intro tv seen h; simpa [getUrlsLoop] using h
  | succ n ih =>
    intro tv seen h
    cases tv with
    | nil => simpa [getUrlsLoop] using h
    | cons u rest =>
      simp only [getUrlsLoop]
      by_cases h1 : seen.card < maxPages
      · rw [if_pos h1]
        by_cases h2 : u ∈ seen
        · rw [if_pos h2]; exact ih rest seen h
        · rw [if_neg h2]
          have hc : (insert u seen).card ≤ maxPages := by
            have := Finset.card_insert_le u seen
            omega
          cases hfu : fetch u with
          | some content => exact ih _ _ hc
          | none => exact ih _ _ hc
      · rw [if_neg h1]; exact h

end Crawler

/-- C7: for every fetch behaviour, every link-extraction behaviour, every
seed URL, every `max_pages` and every number of loop iterations, the
visited set returned by `Crawler.get_urls` has at most `max_pages`
elements. -/
theorem C7_visited_card_le_max_pages (fetch : String → Option String)
    (extract : String → String → List String) (startUrl : String)
    (maxPages fuel : ℕ) :
    (Crawler.getUrls fetch extract startUrl maxPages fuel).card ≤ maxPages :=
  Crawler.getUrlsLoop_card_le fetch extract maxPages fuel [startUrl] ∅
    (by simp)

/-- C5: the claimed bound "completions in `[t, t+T]` is at most
`B + ⌊R·T⌋`" FAILS on the code: with `R = 2, B = 5` the trace `c5trace` is
a valid behaviour (the run succeeds), has 6 completions in `[0, 1/4]`, and
`6 > 5 + ⌊2 · 1/4⌋ = 5`.  The same `tokens <= 0` guard slip lets the 20th
of 20 acquires complete shortly after `t = 7`, before the claimed
`t = 7.5 s`. -/
theorem C5_window_bound_violated :
    (RateLimiter.run RateLimiter.defaultCfg c5trace
      (RateLimiter.initBucket RateLimiter.defaultCfg 0)).isSome = true ∧
    RateLimiter.completionsIn c5trace 0 (1/4) = 6 ∧
    ¬((RateLimiter.completionsIn c5trace 0 (1/4) : ℤ) ≤
        5 + Int.floor ((2 : ℚ) * (1/4 - 0))) := by
  have hfloor : Int.floor ((2 : ℚ) * (1/4 - 0)) = 0 := by
    rw [Int.floor_eq_zero_iff]
    constructor <;> norm_num
  refine ⟨?_, ?_, ?_⟩
  · norm_num [c5trace, RateLimiter.run, RateLimiter.step, RateLimiter.refill,
      RateLimiter.initBucket, RateLimiter.defaultCfg, min_def]
  · norm_num [c5trace, RateLimiter.completionsIn, List.countP, List.countP.go]
  · rw [hfloor]
    norm_num [c5trace, RateLimiter.completionsIn, List.countP, List.countP.go]

/-- C6: the claim "acquire completes only when the bucket holds at least 1
token, and the count stays within `[0, burst]`" FAILS on the code: running
`c6trace` with `R = 2, B = 5`, the sixth acquire completes when the
refilled count is `1/2 < 1` (the code's guard is `tokens <= 0`, not
`< 1`), and the bucket ends at `-1/2 < 0`.  `release` can also push the
count to `11/2`, above the burst cap, because it adds a full token
whenever the count is merely below the cap. -/
theorem C6_tokens_negative :
    RateLimiter.run RateLimiter.defaultCfg c6trace
        (RateLimiter.initBucket RateLimiter.defaultCfg 0) =
      some { tokens := -(1/2), lastUpdate := 1/4 } ∧
    (RateLimiter.refill RateLimiter.defaultCfg
        { tokens := 0, lastUpdate := 0 } (1/4)).tokens = 1/2 ∧
    ¬(1 ≤ (1 : ℚ)/2) ∧
    ¬(0 ≤ (-(1/2) : ℚ)) ∧
    (RateLimiter.release RateLimiter.defaultCfg
        { tokens := 9/2, lastUpdate := 0 }).tokens = 11/2 ∧
    ¬((11 : ℚ)/2 ≤ RateLimiter.defaultCfg.burstSize) := by
  refine ⟨?_, ?_, by norm_num, by norm_num, ?_, ?_⟩
  · norm_num [c6trace, RateLimiter.run, RateLimiter.step, RateLimiter.refill,
      RateLimiter.initBucket, RateLimiter.defaultCfg, min_def]
  · norm_num [RateLimiter.refill, RateLimiter.defaultCfg, min_def]
  · norm_num [RateLimiter.release, RateLimiter.defaultCfg]
  · norm_num [RateLimiter.defaultCfg]

/-- C3: the claim "adding one additional match while holding the title, meta
description, headers, query, and all existing matches constant does not
decrease the page-level relevance score" is FALSE for
`TextRanker.calculate_relevance`: with query `"foo"`, empty title/meta, no
headers and one existing match `"foo"`, appending a second identical match
drops the total score from 3/2 to 11/8, because the position component is the
mean of `1/(i+1)` and the content component is an average. -/
theorem C3_counterexample :
    (Ranker.calculateRelevance ["foo", "foo"] "" "" [] "foo").total_score <
    (Ranker.calculateRelevance ["foo"] "" "" [] "foo").total_score := by
  simp +decide [Ranker.calculateRelevance, Ranker.titleScore, Ranker.metaScore,
    Ranker.headersScore, Ranker.contentScore, Ranker.positionScore,
    Ranker.matchOne, List.range, List.range.loop]
  norm_num

/-- C3 (amended): appending one match while holding everything else constant
leaves the title, meta and headers components of
`TextRanker.calculate_relevance` unchanged and, when the appended match
contains the (case-folded) query as a substring, does not decrease the
content component; the total relevance can still decrease through the
position component (mean of `1/(i+1)`). -/
theorem C3_amended (ms : List String) (m title md : String)
    (hs : List String) (q : String)
    (h : Ranker.pyIn (Ranker.pyLower q) (Ranker.pyLower m) = true) :
    (Ranker.calculateRelevance (ms ++ [m]) title md hs q).title_score =
      (Ranker.calculateRelevance ms title md hs q).title_score ∧
    (Ranker.calculateRelevance (ms ++ [m]) title md hs q).meta_score =
      (Ranker.calculateRelevance ms title md hs q).meta_score ∧
    (Ranker.calculateRelevance (ms ++ [m]) title md hs q).headers_score =
      (Ranker.calculateRelevance ms title md hs q).headers_score ∧
    (Ranker.calculateRelevance ms title md hs q).content_score ≤
      (Ranker.calculateRelevance (ms ++ [m]) title md hs q).content_score := by
  refine ⟨rfl, rfl, rfl, ?_⟩
  show Ranker.contentScore ms (Ranker.pyLower q) ≤
    Ranker.contentScore (ms ++ [m]) (Ranker.pyLower q)
  apply Ranker.contentScore_append_ge
  simp [Ranker.matchOne, h]

/-- Witness for C3 (amended) at a concrete input. -/
theorem C3_amended_witness :
    Ranker.pyIn (Ranker.pyLower "Foo") (Ranker.pyLower "the foo") = true ∧
    ((Ranker.calculateRelevance (["bar"] ++ ["the foo"]) "T" "" ["H"] "Foo").title_score =
      (Ranker.calculateRelevance ["bar"] "T" "" ["H"] "Foo").title_score ∧
    (Ranker.calculateRelevance (["bar"] ++ ["the foo"]) "T" "" ["H"] "Foo").meta_score =
      (Ranker.calculateRelevance ["bar"] "T" "" ["H"] "Foo").meta_score ∧
    (Ranker.calculateRelevance (["bar"] ++ ["the foo"]) "T" "" ["H"] "Foo").headers_score =
      (Ranker.calculateRelevance ["bar"] "T" "" ["H"] "Foo").headers_score ∧
    (Ranker.calculateRelevance ["bar"] "T" "" ["H"] "Foo").content_score ≤
      (Ranker.calculateRelevance (["bar"] ++ ["the foo"]) "T" "" ["H"] "Foo").content_score) :=
  ⟨by decide, C3_amended ["bar"] "the foo" "T" "" ["H"] "Foo" (by decide)⟩

namespace SM

theorem stateOfKwargs_error_of_progress (d : List (String × PyVal))
    (h : d.any (fun q => q.1 = "progress") = true) :
    stateOfKwargs d = .error "TypeError: unexpected keyword argument" := by
  unfold stateOfKwargs
  rcases List.any_eq_true.mp h with ⟨q, hq, hq1⟩
  have hq1' : q.1 = "progress" := by simpa using hq1
  have hfalse : d.all (fun p => hasattr p.1) = false := by
    refine List.all_eq_false.mpr ⟨q, hq, ?_⟩
    rw [hq1']
    decide
  rw [hfalse]
  rfl

theorem wf_lookup (st : Store) (h : wf st = true) (k : String)
    (d : List (String × PyVal)) (hk : slookup st k = some d) :
    d.any (fun q => q.1 = "progress") = true := by
  unfold slookup at hk
  rcases Option.map_eq_some'.mp hk with ⟨p, hp, hpd⟩
  have hmem := List.mem_of_find?_eq_some hp
  have hall := List.all_eq_true.mp h p hmem
  rw [← hpd]
  exact hall

theorem updateState_wf (st : Store) (id : String)
    (kwargs : List (String × PyVal)) (now : ℚ) (h : wf st = true) :
    updateState st id kwargs now = .ok st ∨
    updateState st id kwargs now =
      .error "TypeError: unexpected keyword argument" := by
  unfold updateState
  cases hg : getState st id with
  | none => left; rfl
  | some d =>
    have hp := wf_lookup st h (skey id) d hg
    dsimp only
    rw [stateOfKwargs_error_of_progress d hp]
    right
    rfl

theorem applyOp_wf (st : Store) (op : Op) (h : wf st = true) :
    applyOp st op = st := by
  cases op with
  | update id kw now =>
    unfold applyOp
    dsimp only
    rcases updateState_wf st id kw now h with he | he <;> rw [he]
  | complete id now =>
    unfold applyOp markCompleted
    dsimp only
    rcases updateState_wf st id
        [("current_status", PyVal.pstr "completed"),
         ("last_update", PyVal.pfloat now)] now h with he | he <;> rw [he]
  | err id msg now =>
    unfold applyOp markError
    dsimp only
    rcases updateState_wf st id
        [("current_status", PyVal.pstr "error"), ("error", PyVal.pstr msg),
         ("last_update", PyVal.pfloat now)] now h with he | he <;> rw [he]

theorem runOps_wf (st : Store) (h : wf st = true) :
    ∀ ops : List Op, runOps st ops = st
  | [] => rfl
  | op :: ops => by
    unfold runOps
    rw [applyOp_wf st op h]
    exact runOps_wf st h ops

end SM

/-- C8: for every store every stored document of which carries the derived
`progress` key (everything `_save_state` writes does), every sequence of
state-tracker mutations (`update_state`, `mark_completed`, `mark_error`)
and every search id whose stored status is terminal, the snapshot after the
sequence is unchanged — so the status never moves to a non-terminal value
and `processed_urls`/`found_results` are non-decreasing across consecutive
snapshots.  (This holds because `SearchState(**current_state)` inside
`update_state` raises `TypeError` on the stored `progress`/`elapsed_time`
keys, so no mutation of an existing state ever commits.) -/
theorem C8_terminal_absorbing (st : SM.Store) (ops : List SM.Op)
    (id : String) (hwf : SM.wf st = true) (d : List (String × SM.PyVal))
    (hd : SM.getState st id = some d)
    (hterm : SM.dictGet d "current_status" = some (SM.PyVal.pstr "completed") ∨
      SM.dictGet d "current_status" = some (SM.PyVal.pstr "error")) :
    ∃ d', SM.getState (SM.runOps st ops) id = some d' ∧
      SM.dictGet d' "current_status" = SM.dictGet d "current_status" ∧
      ((SM.dictGet d "processed_urls").getD (SM.PyVal.pint 0)).toQ ≤
        ((SM.dictGet d' "processed_urls").getD (SM.PyVal.pint 0)).toQ ∧
      ((SM.dictGet d "found_results").getD (SM.PyVal.pint 0)).toQ ≤
        ((SM.dictGet d' "found_results").getD (SM.PyVal.pint 0)).toQ := by
  refine ⟨d, ?_, rfl, le_refl _, le_refl _⟩
  rw [SM.runOps_wf st hwf ops]
  exact hd

/-- Witness for C8 at a concrete input: a store holding one completed
search; an `update_state` forcing `current_status="waiting"`, a
`mark_completed` of another id and a `mark_error` of the same id all leave
the snapshot untouched. -/
theorem C8_witness :
    SM.wf SM.c8store = true ∧
    SM.getState SM.c8store "s1" = some (SM.toDict SM.c8state 0) ∧
    (SM.dictGet (SM.toDict SM.c8state 0) "current_status" =
        some (SM.PyVal.pstr "completed") ∨
      SM.dictGet (SM.toDict SM.c8state 0) "current_status" =
        some (SM.PyVal.pstr "error")) ∧
    (∃ d', SM.getState (SM.runOps SM.c8store SM.c8ops) "s1" = some d' ∧
      SM.dictGet d' "current_status" =
        SM.dictGet (SM.toDict SM.c8state 0) "current_status" ∧
      ((SM.dictGet (SM.toDict SM.c8state 0) "processed_urls").getD
          (SM.PyVal.pint 0)).toQ ≤
        ((SM.dictGet d' "processed_urls").getD (SM.PyVal.pint 0)).toQ ∧
      ((SM.dictGet (SM.toDict SM.c8state 0) "found_results").getD
          (SM.PyVal.pint 0)).toQ ≤
        ((SM.dictGet d' "found_results").getD (SM.PyVal.pint 0)).toQ) :=
  ⟨rfl, rfl, Or.inl rfl,
    C8_terminal_absorbing SM.c8store SM.c8ops "s1" rfl
      (SM.toDict SM.c8state 0) rfl (Or.inl rfl)⟩

/-- C10: for every search id with no stored state, `update_state` — and
hence `mark_completed` and `mark_error` — returns without error
(`if not current_state: return`) and leaves the backing store unchanged. -/
theorem C10_missing_state_noop (st : SM.Store) (id : String)
    (kwargs : List (String × SM.PyVal)) (now : ℚ) (err : String)
    (h : SM.getState st id = none) :
    SM.updateState st id kwargs now = .ok st ∧
    SM.markCompleted st id now = .ok st ∧
    SM.markError st id err now = .ok st := by
  refine ⟨?_, ?_, ?_⟩
  · unfold SM.updateState
    rw [h]
  · unfold SM.markCompleted SM.updateState
    rw [h]
  · unfold SM.markError SM.updateState
    rw [h]

/-- Witness for C10 at a concrete input: the empty store and an unknown
search id. -/
theorem C10_witness :
    SM.getState ([] : SM.Store) "s" = none ∧
    (SM.updateState ([] : SM.Store) "s"
        [("current_status", SM.PyVal.pstr "completed")] 1 = .ok [] ∧
      SM.markCompleted ([] : SM.Store) "s" 1 = .ok [] ∧
      SM.markError ([] : SM.Store) "s" "boom" 1 = .ok []) :=
  ⟨rfl, C10_missing_state_noop [] "s"
    [("current_status", SM.PyVal.pstr "completed")] 1 "boom" rfl⟩

namespace SM

theorem slookup_sinsert_self (st : Store) (k : String)
    (d : List (String × PyVal)) : slookup (sinsert st k d) k = some d := by
  unfold slookup sinsert
  rw [List.find?_cons_of_pos _ (by simp)]
  rfl

end SM

/-- C9: the claim is FALSE in its hit-counter part: with a null stored
under `(u, q)`, `get_result` does return `None`, but the hit counter is
NOT incremented — the body raises `TypeError` at its first statement
(`data = await self.redis.get(key)` awaits the synchronous client's
return value), before either counter line can run, and
`handle_cache_errors` converts the exception to `None`. -/
theorem C9_counterexample :
    Cache.lookup c9cache.store (Cache.makeKey "u" "q") =
      some Cache.JsonVal.null ∧
    (Cache.getResult c9cache "u" "q").2 = none ∧
    ¬((Cache.getResult c9cache "u" "q").1.hits = c9cache.hits + 1) := by
  refine ⟨rfl, rfl, ?_⟩
  decide

/-- C9 (amended): for every cache state and key — absent entry, stored
null, or stored value alike — `get_result` returns `None` and leaves the
counters and the store untouched, because its body raises `TypeError` at
the first statement (the synchronous Redis client's return value is
awaited) and `handle_cache_errors` swallows the exception.  The caller
therefore still cannot distinguish a cached no-match from an absent
entry — nor, indeed, from a cached hit. -/
theorem C9_amended (c : Cache.CacheState) (url term : String) :
    (Cache.getResult c url term).2 = none ∧
    (Cache.getResult c url term).1 = c := by
  unfold Cache.getResult Cache.getResultBody Cache.handleCacheErrors
  cases Cache.lookup c.store (Cache.makeKey url term) <;> exact ⟨rfl, rfl⟩

/-- C1: no search ever reaches a terminal state, so the claimed
"processed_urls = total_urls at the terminal state" is unrealizable.  For
every input, `search` raises — `init_search` commits the waiting document
and raises `TypeError` (sync Redis awaited in `_save_state`), then the
`except` block's `fail_search` lookup raises `AttributeError` — and the
stored snapshot keeps `current_status = "waiting"` with
`processed_urls = 0`; the increment site is unreachable
(`increment_processed_urls` does not exist on `StateManager`, and
`process_url` would in any case skip the increment on cache hits, empty
fetches, null parses and per-URL errors). -/
theorem C1_never_terminal (st : SM.Store)
    (searchId startUrl searchTerm : String) (maxPages : ℕ) (now : ℚ) :
    (Engine.searchRun st searchId startUrl searchTerm maxPages now).2.2 =
      .error "AttributeError: StateManager has no attribute fail_search" ∧
    SM.getState
        (Engine.searchRun st searchId startUrl searchTerm maxPages now).1
        searchId =
      some (SM.toDict
        { start_time := SM.PyVal.pfloat now
          last_update := SM.PyVal.pfloat now } now) ∧
    SM.dictGet
        (SM.toDict { start_time := SM.PyVal.pfloat now
                     last_update := SM.PyVal.pfloat now } now)
        "current_status" = some (SM.PyVal.pstr "waiting") ∧
    SM.dictGet
        (SM.toDict { start_time := SM.PyVal.pfloat now
                     last_update := SM.PyVal.pfloat now } now)
        "processed_urls" = some (SM.PyVal.pint 0) := by
  refine ⟨rfl, ?_, rfl, rfl⟩
  show SM.slookup
    (SM.sinsert st (SM.skey searchId) _) (SM.skey searchId) = _
  exact SM.slookup_sinsert_self st (SM.skey searchId) _

/-- C2: the cache-hit path can never behave as claimed.  For every input
the search raises at step 1 before any cache lookup or fetch — the fetch
log is empty and no result list is returned, so a cached value (null or
not) is neither "used without a fetch" nor present in a returned list.
Moreover `get_result` itself always returns `None` (its body raises
`TypeError` at `await self.redis.get`, swallowed by
`handle_cache_errors`), so even a reachable lookup of a present entry
would test falsy at the walrus and the URL would be fetched. -/
theorem C2_cache_never_used (st : SM.Store) (searchId u q : String)
    (maxPages : ℕ) (now : ℚ) (c : Cache.CacheState) :
    (Engine.searchRun st searchId u q maxPages now).2.1 = [] ∧
    (∀ l : List Engine.SearchResult,
      (Engine.searchRun st searchId u q maxPages now).2.2 ≠ .ok l) ∧
    (Cache.getResult c u q).2 = none := by
  refine ⟨rfl, ?_, ?_⟩
  · intro l h
    exact Except.noConfusion h
  · unfold Cache.getResult Cache.getResultBody Cache.handleCacheErrors
    cases Cache.lookup c.store (Cache.makeKey u q) <;> rfl

/-- C4: the orchestrator never returns a result list at all: for every
input, `search` ends in the raised `AttributeError` (after `init_search`'s
`TypeError`), so the `valid_results.sort(key=..., reverse=True)` on line
61 — the code the claim is about — is unreachable and no sorted (or any)
list is ever produced. -/
theorem C4_no_list_returned (st : SM.Store)
    (searchId startUrl searchTerm : String) (maxPages : ℕ) (now : ℚ) :
    (Engine.searchRun st searchId startUrl searchTerm maxPages now).2.2 =
      .error "AttributeError: StateManager has no attribute fail_search" :=
  rfl
